import Mathlib

/-!
Shallow embedding of the `length` Rust crate (src/lib.rs).

Modelling conventions:
* Rust `f64` values are modelled as exact rationals (`ℚ`).  Every numeric
  literal of the source (including the long decimal metric factors) is an
  exactly representable decimal, translated to the same rational.  The
  constant `std::f64::consts::PI` is itself a rational number (the IEEE-754
  double closest to π); `PI` below is that exact rational.
* The fallible constructor `Length::new_string` and `Unit::from_str` return
  `Option` (Rust: `Option` resp. `Result` with an uninformative error).
* `Length::to` recurses through pivot units; the recursion depth is at most
  three, so it is embedded with an explicit fuel of 3 (`toFuel`); the fuel-0
  fallback is the final same-system scaling line of the source and is never
  reached from `Length.to`.
* The `normalize` loop (`while !done && iterations < 10`) is embedded as
  `normGo 10`, one `normStep` per loop-body execution; `normStep = none`
  corresponds to a body that sets `done = true`.  The down-branch uses
  `to_by_ref`, which copies only `value` and `unit` and therefore keeps the
  receiver's `original_string`; the up-branch replaces the whole struct.
-/

namespace LengthLib

/-- Exact rational value of the IEEE-754 double `std::f64::consts::PI`. -/
def PI : ℚ := 884279719003555 / 281474976710656

def YARD_TO_METER_FACTOR : ℚ := 0.9144

def LIGHTYEAR_TO_METER_FACTOR : ℚ := 9460730472580800

def LIGHTDAY_TO_LIGHTYEAR_FACTOR : ℚ := 1 / 365.25

def LIGHTHOUR_TO_LIGHTYEAR_FACTOR : ℚ := 1 / (365.25 * 24)

def LIGHTMINUTE_TO_LIGHTYEAR_FACTOR : ℚ := 1 / (365.25 * 24 * 60)

def LIGHTSECOND_TO_LIGHTYEAR_FACTOR : ℚ := 1 / (365.25 * 24 * 60 * 60)

def ASTRONOMICAL_UNIT_TO_LIGHTYEAR_FACTOR : ℚ := 149597870700 / 9460730472580800

def PARSEC_TO_ASTRONOMICAL_UNITS_FACTOR : ℚ := 648000 / PI

def PARSEC_TO_LIGHTYEAR_FACTOR : ℚ :=
  ASTRONOMICAL_UNIT_TO_LIGHTYEAR_FACTOR * PARSEC_TO_ASTRONOMICAL_UNITS_FACTOR

def KILOPARSEC_TO_LIGHTYEAR_FACTOR : ℚ := PARSEC_TO_LIGHTYEAR_FACTOR * 1000

def MEGAPARSEC_TO_LIGHTYEAR_FACTOR : ℚ := PARSEC_TO_LIGHTYEAR_FACTOR * 1000000

inductive AstronomicUnit
  | AstronomicalUnit
  | Lightsecond
  | Lightminute
  | Lighthour
  | Lightday
  | Lightyear
  | Parsec
  | Kiloparsec
  | Megaparsec
  deriving DecidableEq, Fintype, Repr

inductive ImperialUnit
  | Inch
  | Foot
  | Yard
  | Mile
  deriving DecidableEq, Fintype, Repr

inductive MetricUnit
  | Yoctometer
  | Zeptometer
  | Attometer
  | Femtometer
  | Picometer
  | Nanometer
  | Micrometer
  | Millimeter
  | Centimeter
  | Decimeter
  | Meter
  | Decameter
  | Hectometer
  | Kilometer
  | Megameter
  | Gigameter
  | Terameter
  | Petameter
  | Exameter
  | Zettameter
  | Yottameter
  deriving DecidableEq, Fintype, Repr

inductive Unit
  | Astronomic (u : AstronomicUnit)
  | Imperial (u : ImperialUnit)
  | Metric (u : MetricUnit)
  deriving DecidableEq, Fintype, Repr

inductive UnitSystem
  | Astronomic
  | Imperial
  | Metric
  deriving DecidableEq, Fintype, Repr

def AstronomicUnit.factor : AstronomicUnit → ℚ
  | .AstronomicalUnit => ASTRONOMICAL_UNIT_TO_LIGHTYEAR_FACTOR
  | .Lightsecond => LIGHTSECOND_TO_LIGHTYEAR_FACTOR
  | .Lightminute => LIGHTMINUTE_TO_LIGHTYEAR_FACTOR
  | .Lighthour => LIGHTHOUR_TO_LIGHTYEAR_FACTOR
  | .Lightday => LIGHTDAY_TO_LIGHTYEAR_FACTOR
  | .Lightyear => 1
  | .Parsec => PARSEC_TO_LIGHTYEAR_FACTOR
  | .Kiloparsec => KILOPARSEC_TO_LIGHTYEAR_FACTOR
  | .Megaparsec => MEGAPARSEC_TO_LIGHTYEAR_FACTOR

def ImperialUnit.factor : ImperialUnit → ℚ
  | .Inch => 1
  | .Foot => 12
  | .Yard => 36
  | .Mile => 63360

def MetricUnit.factor : MetricUnit → ℚ
  | .Yoctometer => 0.000000000000000000000001
  | .Zeptometer => 0.000000000000000000001
  | .Attometer => 0.000000000000000001
  | .Femtometer => 0.000000000000001
  | .Picometer => 0.000000000001
  | .Nanometer => 0.000000001
  | .Micrometer => 0.000001
  | .Millimeter => 0.001
  | .Centimeter => 0.01
  | .Decimeter => 0.1
  | .Meter => 1
  | .Decameter => 10
  | .Hectometer => 100
  | .Kilometer => 1000
  | .Megameter => 1000000
  | .Gigameter => 1000000000
  | .Terameter => 1000000000000
  | .Petameter => 1000000000000000
  | .Exameter => 1000000000000000000
  | .Zettameter => 1000000000000000000000
  | .Yottameter => 1000000000000000000000000

def Unit.factor : Unit → ℚ
  | .Astronomic u => u.factor
  | .Imperial u => u.factor
  | .Metric u => u.factor

def Unit.system : Unit → UnitSystem
  | .Astronomic _ => .Astronomic
  | .Imperial _ => .Imperial
  | .Metric _ => .Metric

def AstronomicUnit.smaller_unit : AstronomicUnit → Option Unit
  | .AstronomicalUnit => none
  | .Lightsecond => some (.Astronomic .AstronomicalUnit)
  | .Lightminute => some (.Astronomic .Lightsecond)
  | .Lighthour => some (.Astronomic .Lightminute)
  | .Lightday => some (.Astronomic .Lighthour)
  | .Lightyear => some (.Astronomic .Lightday)
  | .Parsec => some (.Astronomic .Lightyear)
  | .Kiloparsec => some (.Astronomic .Parsec)
  | .Megaparsec => some (.Astronomic .Kiloparsec)

def AstronomicUnit.greater_unit : AstronomicUnit → Option Unit
  | .AstronomicalUnit => some (.Astronomic .Lightsecond)
  | .Lightsecond => some (.Astronomic .Lightminute)
  | .Lightminute => some (.Astronomic .Lighthour)
  | .Lighthour => some (.Astronomic .Lightday)
  | .Lightday => some (.Astronomic .Lightyear)
  | .Lightyear => some (.Astronomic .Parsec)
  | .Parsec => some (.Astronomic .Kiloparsec)
  | .Kiloparsec => some (.Astronomic .Megaparsec)
  | .Megaparsec => none

def ImperialUnit.smaller_unit : ImperialUnit → Option Unit
  | .Inch => none
  | .Foot => some (.Imperial .Inch)
  | .Yard => some (.Imperial .Foot)
  | .Mile => some (.Imperial .Yard)

def ImperialUnit.greater_unit : ImperialUnit → Option Unit
  | .Inch => some (.Imperial .Foot)
  | .Foot => some (.Imperial .Yard)
  | .Yard => some (.Imperial .Mile)
  | .Mile => none

def MetricUnit.smaller_unit : MetricUnit → Option Unit
  | .Yoctometer => none
  | .Zeptometer => some (.Metric .Yoctometer)
  | .Attometer => some (.Metric .Zeptometer)
  | .Femtometer => some (.Metric .Attometer)
  | .Picometer => some (.Metric .Femtometer)
  | .Nanometer => some (.Metric .Picometer)
  | .Micrometer => some (.Metric .Nanometer)
  | .Millimeter => some (.Metric .Micrometer)
  | .Centimeter => some (.Metric .Millimeter)
  | .Decimeter => some (.Metric .Centimeter)
  | .Meter => some (.Metric .Decimeter)
  | .Decameter => some (.Metric .Meter)
  | .Hectometer => some (.Metric .Decameter)
  | .Kilometer => some (.Metric .Hectometer)
  | .Megameter => some (.Metric .Kilometer)
  | .Gigameter => some (.Metric .Megameter)
  | .Terameter => some (.Metric .Gigameter)
  | .Petameter => some (.Metric .Terameter)
  | .Exameter => some (.Metric .Petameter)
  | .Zettameter => some (.Metric .Exameter)
  | .Yottameter => some (.Metric .Zettameter)

def MetricUnit.greater_unit : MetricUnit → Option Unit
  | .Yoctometer => some (.Metric .Zeptometer)
  | .Zeptometer => some (.Metric .Attometer)
  | .Attometer => some (.Metric .Femtometer)
  | .Femtometer => some (.Metric .Picometer)
  | .Picometer => some (.Metric .Nanometer)
  | .Nanometer => some (.Metric .Micrometer)
  | .Micrometer => some (.Metric .Millimeter)
  | .Millimeter => some (.Metric .Centimeter)
  | .Centimeter => some (.Metric .Decimeter)
  | .Decimeter => some (.Metric .Meter)
  | .Meter => some (.Metric .Decameter)
  | .Decameter => some (.Metric .Hectometer)
  | .Hectometer => some (.Metric .Kilometer)
  | .Kilometer => some (.Metric .Megameter)
  | .Megameter => some (.Metric .Gigameter)
  | .Gigameter => some (.Metric .Terameter)
  | .Terameter => some (.Metric .Petameter)
  | .Petameter => some (.Metric .Exameter)
  | .Exameter => some (.Metric .Zettameter)
  | .Zettameter => some (.Metric .Yottameter)
  | .Yottameter => none

def Unit.smaller_unit : Unit → Option Unit
  | .Astronomic u => u.smaller_unit
  | .Imperial u => u.smaller_unit
  | .Metric u => u.smaller_unit

def Unit.greater_unit : Unit → Option Unit
  | .Astronomic u => u.greater_unit
  | .Imperial u => u.greater_unit
  | .Metric u => u.greater_unit

def AstronomicUnit.to_string : AstronomicUnit → String
  | .AstronomicalUnit => "au"
  | .Lightsecond => "ls"
  | .Lightminute => "lm"
  | .Lighthour => "lh"
  | .Lightday => "ld"
  | .Lightyear => "ly"
  | .Parsec => "pc"
  | .Kiloparsec => "kpc"
  | .Megaparsec => "Mpc"

def ImperialUnit.to_string : ImperialUnit → String
  | .Inch => "in"
  | .Foot => "ft"
  | .Yard => "yd"
  | .Mile => "mi"

def MetricUnit.to_string : MetricUnit → String
  | .Yoctometer => "ym"
  | .Zeptometer => "zm"
  | .Attometer => "am"
  | .Femtometer => "fm"
  | .Picometer => "pm"
  | .Nanometer => "nm"
  | .Micrometer => "µm"
  | .Millimeter => "mm"
  | .Centimeter => "cm"
  | .Decimeter => "dm"
  | .Meter => "m"
  | .Decameter => "dam"
  | .Hectometer => "hm"
  | .Kilometer => "km"
  | .Megameter => "Mm"
  | .Gigameter => "Gm"
  | .Terameter => "Tm"
  | .Petameter => "Pm"
  | .Exameter => "Em"
  | .Zettameter => "Zm"
  | .Yottameter => "Ym"

def Unit.to_string : Unit → String
  | .Astronomic u => u.to_string
  | .Imperial u => u.to_string
  | .Metric u => u.to_string

/-- Rust `impl FromStr for Unit` (src/lib.rs, lines 543-585); the `Err` case
is modelled as `none`. -/
def Unit.from_str (s : String) : Option Unit :=
  if s = "au" then some (.Astronomic .AstronomicalUnit)
  else if s = "ls" then some (.Astronomic .Lightsecond)
  else if s = "lm" then some (.Astronomic .Lightminute)
  else if s = "lh" then some (.Astronomic .Lighthour)
  else if s = "ld" then some (.Astronomic .Lightday)
  else if s = "ly" then some (.Astronomic .Lightyear)
  else if s = "pc" then some (.Astronomic .Parsec)
  else if s = "kpc" then some (.Astronomic .Kiloparsec)
  else if s = "Mpc" then some (.Astronomic .Megaparsec)
  else if s = "in" then some (.Imperial .Inch)
  else if s = "ft" then some (.Imperial .Foot)
  else if s = "yd" then some (.Imperial .Yard)
  else if s = "mi" then some (.Imperial .Mile)
  else if s = "ym" then some (.Metric .Yoctometer)
  else if s = "zm" then some (.Metric .Zeptometer)
  else if s = "am" then some (.Metric .Attometer)
  else if s = "fm" then some (.Metric .Femtometer)
  else if s = "pm" then some (.Metric .Picometer)
  else if s = "nm" then some (.Metric .Nanometer)
  else if s = "µm" then some (.Metric .Micrometer)
  else if s = "mm" then some (.Metric .Millimeter)
  else if s = "cm" then some (.Metric .Centimeter)
  else if s = "dm" then some (.Metric .Decimeter)
  else if s = "m" then some (.Metric .Meter)
  else if s = "dam" then some (.Metric .Decameter)
  else if s = "hm" then some (.Metric .Hectometer)
  else if s = "km" then some (.Metric .Kilometer)
  else if s = "Mm" then some (.Metric .Megameter)
  else if s = "Gm" then some (.Metric .Gigameter)
  else if s = "Tm" then some (.Metric .Terameter)
  else if s = "Pm" then some (.Metric .Petameter)
  else if s = "Em" then some (.Metric .Exameter)
  else if s = "Zm" then some (.Metric .Zettameter)
  else if s = "Ym" then some (.Metric .Yottameter)
  else none

structure Length where
  unit : Unit
  value : ℚ
  original_string : String
  deriving DecidableEq, Repr

def Length.new : Length := ⟨.Metric .Meter, 0, ""⟩

def Length.new_value_unit (value : ℚ) (unit : Unit) : Length := ⟨unit, value, ""⟩

/-- Rust `Length::to` (src/lib.rs, lines 218-274), with an explicit fuel for
the bounded recursion through pivot units (depth at most 2 from `Length.to`,
so fuel 3 never reaches the fuel-0 fallback, which is the final same-system
scaling line 272-273 of the source). -/
def Length.toFuel (fuel : Nat) (l : Length) (d : Unit) : Length :=
  if l.unit = d then l
  else
    let lc : Length :=
      if l.unit.system = d.system then l
      else
        match fuel, d.system, l.unit.system with
        | f + 1, .Astronomic, .Metric =>
          let source_in_m := Length.toFuel f l (.Metric .Meter)
          Length.new_value_unit (source_in_m.value / LIGHTYEAR_TO_METER_FACTOR)
            (.Astronomic .Lightyear)
        | f + 1, .Astronomic, .Imperial =>
          let source_in_m := Length.toFuel f l (.Metric .Meter)
          Length.new_value_unit (source_in_m.value / LIGHTYEAR_TO_METER_FACTOR)
            (.Astronomic .Lightyear)
        | f + 1, .Imperial, .Astronomic =>
          let source_in_ly := Length.toFuel f l (.Astronomic .Lightyear)
          let m := source_in_ly.value * LIGHTYEAR_TO_METER_FACTOR
          Length.new_value_unit (m / YARD_TO_METER_FACTOR) (.Imperial .Yard)
        | f + 1, .Imperial, .Metric =>
          let source_in_m := Length.toFuel f l (.Metric .Meter)
          Length.new_value_unit (source_in_m.value / YARD_TO_METER_FACTOR) (.Imperial .Yard)
        | f + 1, .Metric, .Astronomic =>
          let source_in_ly := Length.toFuel f l (.Astronomic .Lightyear)
          Length.new_value_unit (source_in_ly.value * LIGHTYEAR_TO_METER_FACTOR)
            (.Metric .Meter)
        | f + 1, .Metric, .Imperial =>
          let source_in_yd := Length.toFuel f l (.Imperial .Yard)
          Length.new_value_unit (source_in_yd.value * YARD_TO_METER_FACTOR) (.Metric .Meter)
        | _, _, _ => l
    Length.new_value_unit (lc.value * (lc.unit.factor * (1 / d.factor))) d

def Length.to (l : Length) (d : Unit) : Length := Length.toFuel 3 l d

/-- One execution of the body of the `normalize` loop (src/lib.rs, lines
152-178): `none` means the body set `done = true`, `some l2` means the body
moved to `l2` with `done = false`.  The down-branch goes through
`to_by_ref`, which copies only `value` and `unit` from the conversion result
and keeps `original_string`; the up-branch assigns the whole converted
struct. -/
def Length.normStep (l : Length) : Option Length :=
  if l.value < 1 then
    match l.unit.smaller_unit with
    | some u =>
      let t := l.to u
      some ⟨t.unit, t.value, l.original_string⟩
    | none => none
  else
    match l.unit.greater_unit with
    | some u =>
      let test_normalized := l.to u
      if 1 ≤ test_normalized.value then some test_normalized else none
    | none => none

/-- The `while !done && iterations < 10` loop of `Length::normalize`: the
`Bool` is the final value of `done` (`false` exactly when the iteration cap
stopped the loop). -/
def Length.normGo : Nat → Length → Length × Bool
  | 0, l => (l, false)
  | fuel + 1, l =>
    match l.normStep with
    | none => (l, true)
    | some l2 => Length.normGo fuel l2

/-- Rust `Length::normalize` (src/lib.rs, lines 147-181). -/
def Length.normalize (l : Length) : Length := (Length.normGo 10 l).1

/-- Rust `Length::add` (src/lib.rs, lines 314-321): `..Default::default()`
fills `original_string` with the empty string. -/
def Length.add (l : Length) (other : Length) : Length :=
  let length_with_source_unit := other.to l.unit
  ⟨l.unit, l.value + length_with_source_unit.value, ""⟩

/-- Rust `Length::subtract` (src/lib.rs, lines 355-362). -/
def Length.subtract (l : Length) (other : Length) : Length :=
  let length_with_source_unit := other.to l.unit
  ⟨l.unit, l.value - length_with_source_unit.value, ""⟩

/-- Rust `Length::multiply_by` (src/lib.rs, lines 395-402). -/
def Length.multiply_by (l : Length) (factor : ℚ) : Length :=
  ⟨l.unit, l.value * factor, ""⟩

/-- Rust `Length::divide_by` (src/lib.rs, lines 434-441).  (`ℚ` division by
zero yields 0 where `f64` yields an infinity; no claim depends on this.) -/
def Length.divide_by (l : Length) (factor : ℚ) : Length :=
  ⟨l.unit, l.value / factor, ""⟩

/-- ASCII whitespace recognised by the parser regex class `\s` (the regex
class is Unicode white-space; only its ASCII part can ever sit next to the
ASCII number and letters the pattern requires, apart from exotic inputs that
no claim exercises). -/
def isWsChar (c : Char) : Bool :=
  c = ' ' || c = '\t' || c = '\n' || c = '\r' || c = Char.ofNat 11 || c = Char.ofNat 12

def digitsToNat (ds : List Char) : Nat :=
  ds.foldl (fun a c => 10 * a + (c.toNat - 48)) 0

/-- Rust `Length::new_string` (src/lib.rs, lines 87-117): deterministic
rendering of the anchored regex
`^\s*([0-9]+(\.[0-9]+)?)\s*([a-zA-Z]\x7b1,3\x7d)\s*$`; `cap[0]` of an
anchored match is the whole input, `cap[1]` the number, `cap[3]` the symbol.
The `f64` parse of `cap[1]` is modelled as the exact decimal rational. -/
def Length.new_string (s : String) : Option Length :=
  let cs := s.data.dropWhile isWsChar
  let ds := cs.takeWhile Char.isDigit
  if ds.isEmpty then none
  else
    let rest := cs.drop ds.length
    let fracAndRest : List Char × List Char :=
      match rest with
      | '.' :: r =>
        let fs := r.takeWhile Char.isDigit
        if fs.isEmpty then ([], rest) else (fs, r.drop fs.length)
      | _ => ([], rest)
    let fracDs := fracAndRest.1
    let rest2 := fracAndRest.2.dropWhile isWsChar
    let sym := rest2.takeWhile Char.isAlpha
    let rest3 := rest2.drop sym.length
    if sym.length < 1 || 3 < sym.length then none
    else if !rest3.all isWsChar then none
    else
      match Unit.from_str (String.mk sym) with
      | some u =>
        some ⟨u, (digitsToNat ds : ℚ) + (digitsToNat fracDs : ℚ) / 10 ^ fracDs.length, s⟩
      | none => none

theorem Length.normGo_succ (f : Nat) (l : Length) :
    Length.normGo (f + 1) l =
      (match l.normStep with
       | none => (l, true)
       | some l2 => Length.normGo f l2) := rfl

theorem Length.normalize_of_normStep_none {l : Length} (h : l.normStep = none) :
    l.normalize = l := by
  have h10 : Length.normGo 10 l = (l, true) := by
    show Length.normGo (9 + 1) l = (l, true)
    rw [Length.normGo_succ, h]
  simp [Length.normalize, h10]

theorem Length.normGo_done (n : Nat) (l y : Length) (h : Length.normGo n l = (y, true)) :
    y.normStep = none := by
  induction n generalizing l with
  | zero => simp [Length.normGo] at h
  | succ f ih =>
    rw [Length.normGo_succ] at h
    cases hs : l.normStep with
    | none =>
      rw [hs] at h
      injection h with h1 h2
      exact h1 ▸ hs
    | some l2 =>
      rw [hs] at h
      exact ih l2 h

theorem Length.normStep_eq_none_of_no_greater (l : Length) (h1 : 1 ≤ l.value)
    (h2 : l.unit.greater_unit = none) : l.normStep = none := by
  simp only [Length.normStep]
  rw [if_neg (not_lt.mpr h1), h2]

theorem Length.normStep_eq_none_of_up_lt (l : Length) (g : Unit) (h1 : 1 ≤ l.value)
    (h2 : l.unit.greater_unit = some g) (h3 : (l.to g).value < 1) : l.normStep = none := by
  simp only [Length.normStep]
  rw [if_neg (not_lt.mpr h1), h2]
  show (if 1 ≤ (l.to g).value then some (l.to g) else none) = none
  rw [if_neg (not_le.mpr h3)]

theorem Length.to_same_system (l : Length) (d : Unit) (hne : l.unit ≠ d)
    (hsys : l.unit.system = d.system) :
    l.to d = Length.new_value_unit (l.value * (l.unit.factor * (1 / d.factor))) d := by
  rw [Length.to]
  unfold Length.toFuel
  rw [if_neg hne, if_pos hsys]


theorem Length.toFuel_same (n : Nat) (l : Length) (d : Unit)
    (hsys : l.unit.system = d.system) :
    Length.toFuel n l d =
      if l.unit = d then l
      else Length.new_value_unit (l.value * (l.unit.factor * (1 / d.factor))) d := by
  unfold Length.toFuel
  by_cases h : l.unit = d
  · rw [if_pos h, if_pos h]
  · rw [if_neg h, if_neg h, if_pos hsys]

theorem Length.to_astronomic_to_metric (a : AstronomicUnit) (m : MetricUnit) (v : ℚ)
    (o : String) :
    (⟨.Astronomic a, v, o⟩ : Length).to (.Metric m) =
      Length.new_value_unit
        ((Length.toFuel 2 ⟨.Astronomic a, v, o⟩ (.Astronomic .Lightyear)).value *
          LIGHTYEAR_TO_METER_FACTOR * (1 * (1 / m.factor))) (.Metric m) := rfl

theorem Length.to_imperial_to_metric (i : ImperialUnit) (m : MetricUnit) (v : ℚ)
    (o : String) :
    (⟨.Imperial i, v, o⟩ : Length).to (.Metric m) =
      Length.new_value_unit
        ((Length.toFuel 2 ⟨.Imperial i, v, o⟩ (.Imperial .Yard)).value *
          YARD_TO_METER_FACTOR * (1 * (1 / m.factor))) (.Metric m) := rfl

theorem Length.normStep_eq_none_of_no_smaller (l : Length) (h1 : l.value < 1)
    (h2 : l.unit.smaller_unit = none) : l.normStep = none := by
  simp only [Length.normStep]
  rw [if_pos h1, h2]

theorem Length.metric_normStep_down (u s : MetricUnit) (v w : ℚ) (o : String)
    (hs : u.smaller_unit = some (.Metric s))
    (hne : Unit.Metric u ≠ Unit.Metric s)
    (hv : v < 1)
    (hw : v * ((Unit.Metric u).factor * (1 / (Unit.Metric s).factor)) = w) :
    (⟨.Metric u, v, o⟩ : Length).normStep = some ⟨.Metric s, w, o⟩ := by
  have ht : (⟨.Metric u, v, o⟩ : Length).to (.Metric s) = ⟨.Metric s, w, ""⟩ := by
    rw [Length.to, Length.toFuel_same 3 ⟨.Metric u, v, o⟩ (.Metric s) rfl, if_neg hne]
    show Length.new_value_unit
      (v * ((Unit.Metric u).factor * (1 / (Unit.Metric s).factor))) (.Metric s) = _
    rw [hw]
    rfl
  simp only [Length.normStep]
  rw [if_pos hv]
  simp only [Unit.smaller_unit, hs, ht]

theorem Length.metric_normStep_up (u g : MetricUnit) (v w : ℚ) (o : String)
    (hg : u.greater_unit = some (.Metric g))
    (hne : Unit.Metric u ≠ Unit.Metric g)
    (h1 : ¬ v < 1)
    (hw : v * ((Unit.Metric u).factor * (1 / (Unit.Metric g).factor)) = w)
    (hup : 1 ≤ w) :
    (⟨.Metric u, v, o⟩ : Length).normStep = some ⟨.Metric g, w, ""⟩ := by
  have ht : (⟨.Metric u, v, o⟩ : Length).to (.Metric g) = ⟨.Metric g, w, ""⟩ := by
    rw [Length.to, Length.toFuel_same 3 ⟨.Metric u, v, o⟩ (.Metric g) rfl, if_neg hne]
    show Length.new_value_unit
      (v * ((Unit.Metric u).factor * (1 / (Unit.Metric g).factor))) (.Metric g) = _
    rw [hw]
    rfl
  simp only [Length.normStep]
  rw [if_neg h1]
  simp only [Unit.greater_unit, hg, ht]
  rw [if_pos hup]

theorem Length.metric_normStep_stop (u g : MetricUnit) (v : ℚ) (o : String)
    (hg : u.greater_unit = some (.Metric g))
    (hne : Unit.Metric u ≠ Unit.Metric g)
    (h1 : ¬ v < 1)
    (hstop : v * ((Unit.Metric u).factor * (1 / (Unit.Metric g).factor)) < 1) :
    (⟨.Metric u, v, o⟩ : Length).normStep = none := by
  have ht : (⟨.Metric u, v, o⟩ : Length).to (.Metric g) =
      ⟨.Metric g, v * ((Unit.Metric u).factor * (1 / (Unit.Metric g).factor)), ""⟩ := by
    rw [Length.to, Length.toFuel_same 3 ⟨.Metric u, v, o⟩ (.Metric g) rfl, if_neg hne]
    rfl
  simp only [Length.normStep]
  rw [if_neg h1]
  simp only [Unit.greater_unit, hg, ht]
  rw [if_neg (not_le.mpr hstop)]

theorem Length.normGo_some (f : Nat) {l l2 : Length} (h : l.normStep = some l2) :
    Length.normGo (f + 1) l = Length.normGo f l2 := by
  rw [Length.normGo_succ, h]

theorem Length.normGo_none (f : Nat) {l : Length} (h : l.normStep = none) :
    Length.normGo (f + 1) l = (l, true) := by
  rw [Length.normGo_succ, h]

/-- C1 counterexample: 50 Meter has value in `[1, 1000)` of its unit, yet
normalize is not a no-op on it — it returns 5 Decameter. -/
theorem c1_counterexample :
    (1 : ℚ) ≤ 50 ∧ (50 : ℚ) < 1000 ∧
    Length.normalize ⟨.Metric .Meter, 50, ""⟩ = ⟨.Metric .Decameter, 5, ""⟩ ∧
    Length.normalize ⟨.Metric .Meter, 50, ""⟩ ≠ ⟨.Metric .Meter, 50, ""⟩ := by
  have u1 : (⟨.Metric .Meter, (50 : ℚ), ""⟩ : Length).normStep =
      some ⟨.Metric .Decameter, 5, ""⟩ :=
    Length.metric_normStep_up _ _ 50 5 "" rfl (by decide) (by norm_num)
      (by norm_num [Unit.factor, MetricUnit.factor]) (by norm_num)
  have st : (⟨.Metric .Decameter, (5 : ℚ), ""⟩ : Length).normStep = none :=
    Length.metric_normStep_stop _ _ 5 "" rfl (by decide) (by norm_num)
      (by norm_num [Unit.factor, MetricUnit.factor])
  have hgo : Length.normGo 10 ⟨.Metric .Meter, 50, ""⟩ =
      (⟨.Metric .Decameter, 5, ""⟩, true) := by
    calc Length.normGo 10 ⟨.Metric .Meter, 50, ""⟩
        = Length.normGo 9 ⟨.Metric .Decameter, 5, ""⟩ := Length.normGo_some 9 u1
      _ = (⟨.Metric .Decameter, 5, ""⟩, true) := Length.normGo_none 8 st
  have hn : Length.normalize ⟨.Metric .Meter, 50, ""⟩ = ⟨.Metric .Decameter, 5, ""⟩ := by
    rw [Length.normalize, hgo]
  exact ⟨by norm_num, by norm_num, hn, by rw [hn]; decide⟩

/-- C1 (amended): for every metric unit, a value in `[1, 10)` makes
normalize a no-op (for the metric units whose upward step is a factor of
1000 — everything outside the Millimeter–Hectometer band — the full
`[1, 1000)` stays a no-op), and normalizing 5000 Meter yields exactly
5 Kilometer. -/
theorem c1_normalize_noop_band :
    (∀ (u : MetricUnit) (v : ℚ) (o : String), 1 ≤ v → v < 10 →
      Length.normalize ⟨.Metric u, v, o⟩ = ⟨.Metric u, v, o⟩) ∧
    (∀ (u : MetricUnit) (v : ℚ) (o : String),
      u ∈ ([.Yoctometer, .Zeptometer, .Attometer, .Femtometer, .Picometer, .Nanometer,
            .Micrometer, .Kilometer, .Megameter, .Gigameter, .Terameter, .Petameter,
            .Exameter, .Zettameter, .Yottameter] : List MetricUnit) →
      1 ≤ v → v < 1000 →
      Length.normalize ⟨.Metric u, v, o⟩ = ⟨.Metric u, v, o⟩) ∧
    Length.normalize ⟨.Metric .Meter, 5000, ""⟩ = ⟨.Metric .Kilometer, 5, ""⟩ := by
  refine ⟨?_, ?_, ?_⟩
  · intro u v o h1 h2
    cases u <;>
      first
        | exact Length.normalize_of_normStep_none
            (Length.normStep_eq_none_of_no_greater _ h1 rfl)
        | exact Length.normalize_of_normStep_none
            (Length.metric_normStep_stop _ _ v o rfl (by decide) (not_lt.mpr h1)
              (by norm_num [Unit.factor, MetricUnit.factor] <;> linarith))
  · intro u v o hu h1 h2
    fin_cases hu <;>
      first
        | exact Length.normalize_of_normStep_none
            (Length.normStep_eq_none_of_no_greater _ h1 rfl)
        | exact Length.normalize_of_normStep_none
            (Length.metric_normStep_stop _ _ v o rfl (by decide) (not_lt.mpr h1)
              (by norm_num [Unit.factor, MetricUnit.factor] <;> linarith))
  · have u1 : (⟨.Metric .Meter, (5000 : ℚ), ""⟩ : Length).normStep =
        some ⟨.Metric .Decameter, 500, ""⟩ :=
      Length.metric_normStep_up _ _ 5000 500 "" rfl (by decide) (by norm_num)
        (by norm_num [Unit.factor, MetricUnit.factor]) (by norm_num)
    have u2 : (⟨.Metric .Decameter, (500 : ℚ), ""⟩ : Length).normStep =
        some ⟨.Metric .Hectometer, 50, ""⟩ :=
      Length.metric_normStep_up _ _ 500 50 "" rfl (by decide) (by norm_num)
        (by norm_num [Unit.factor, MetricUnit.factor]) (by norm_num)
    have u3 : (⟨.Metric .Hectometer, (50 : ℚ), ""⟩ : Length).normStep =
        some ⟨.Metric .Kilometer, 5, ""⟩ :=
      Length.metric_normStep_up _ _ 50 5 "" rfl (by decide) (by norm_num)
        (by norm_num [Unit.factor, MetricUnit.factor]) (by norm_num)
    have st : (⟨.Metric .Kilometer, (5 : ℚ), ""⟩ : Length).normStep = none :=
      Length.metric_normStep_stop _ _ 5 "" rfl (by decide) (by norm_num)
        (by norm_num [Unit.factor, MetricUnit.factor])
    have hgo : Length.normGo 10 ⟨.Metric .Meter, 5000, ""⟩ =
        (⟨.Metric .Kilometer, 5, ""⟩, true) := by
      calc Length.normGo 10 ⟨.Metric .Meter, 5000, ""⟩
          = Length.normGo 9 ⟨.Metric .Decameter, 500, ""⟩ := Length.normGo_some 9 u1
        _ = Length.normGo 8 ⟨.Metric .Hectometer, 50, ""⟩ := Length.normGo_some 8 u2
        _ = Length.normGo 7 ⟨.Metric .Kilometer, 5, ""⟩ := Length.normGo_some 7 u3
        _ = (⟨.Metric .Kilometer, 5, ""⟩, true) := Length.normGo_none 6 st
    rw [Length.normalize, hgo]

/-- C1 witness: 5 Meter lies in `[1, 10)` and normalize leaves it
unchanged. -/
theorem c1_witness :
    (1 : ℚ) ≤ 5 ∧ (5 : ℚ) < 10 ∧
    Length.normalize ⟨.Metric .Meter, 5, ""⟩ = ⟨.Metric .Meter, 5, ""⟩ :=
  ⟨by norm_num, by norm_num,
   c1_normalize_noop_band.1 .Meter 5 "" (by norm_num) (by norm_num)⟩

/-- C2: cross-system conversion staged through the pivot units yields the
literal results 1 au → 149597870700 m, 1 ly → 9460730472580.8 km,
1 mi → 1.609344 km, 1 in → 2.54 cm. -/
theorem c2_pivot_literal_conversions :
    (⟨.Astronomic .AstronomicalUnit, 1, ""⟩ : Length).to (.Metric .Meter) =
      ⟨.Metric .Meter, 149597870700, ""⟩ ∧
    (⟨.Astronomic .Lightyear, 1, ""⟩ : Length).to (.Metric .Kilometer) =
      ⟨.Metric .Kilometer, 9460730472580.8, ""⟩ ∧
    (⟨.Imperial .Mile, 1, ""⟩ : Length).to (.Metric .Kilometer) =
      ⟨.Metric .Kilometer, 1.609344, ""⟩ ∧
    (⟨.Imperial .Inch, 1, ""⟩ : Length).to (.Metric .Centimeter) =
      ⟨.Metric .Centimeter, 2.54, ""⟩ := by
  refine ⟨?_, ?_, ?_, ?_⟩
  · rw [Length.to_astronomic_to_metric,
      Length.toFuel_same 2 ⟨.Astronomic .AstronomicalUnit, 1, ""⟩ (.Astronomic .Lightyear) rfl]
    norm_num [Length.new_value_unit, Unit.factor, AstronomicUnit.factor, MetricUnit.factor,
      ASTRONOMICAL_UNIT_TO_LIGHTYEAR_FACTOR, LIGHTYEAR_TO_METER_FACTOR]
    rw [if_neg (by decide)]
    norm_num
  · rw [Length.to_astronomic_to_metric, Length.toFuel_same 2 _ _ rfl]
    norm_num [Length.new_value_unit, Unit.factor, AstronomicUnit.factor, MetricUnit.factor,
      LIGHTYEAR_TO_METER_FACTOR]
  · rw [Length.to_imperial_to_metric,
      Length.toFuel_same 2 ⟨.Imperial .Mile, 1, ""⟩ (.Imperial .Yard) rfl]
    norm_num [Length.new_value_unit, Unit.factor, ImperialUnit.factor, MetricUnit.factor,
      YARD_TO_METER_FACTOR]
    rw [if_neg (by decide)]
    norm_num
  · rw [Length.to_imperial_to_metric,
      Length.toFuel_same 2 ⟨.Imperial .Inch, 1, ""⟩ (.Imperial .Yard) rfl]
    norm_num [Length.new_value_unit, Unit.factor, ImperialUnit.factor, MetricUnit.factor,
      YARD_TO_METER_FACTOR]
    rw [if_neg (by decide)]
    norm_num

/-- C3 counterexample: Yoctometer's greater neighbor is Zeptometer, whose
factor is 1000 times (not 10 times) Yoctometer's factor. -/
theorem c3_counterexample :
    MetricUnit.Yoctometer.greater_unit = some (.Metric .Zeptometer) ∧
    (Unit.Metric .Zeptometer).factor ≠ 10 * (Unit.Metric .Yoctometer).factor := by
  refine ⟨rfl, ?_⟩
  norm_num [Unit.factor, MetricUnit.factor]

/-- C3 (amended): the 21 metric variants run from Yoctometer (10⁻²⁴ m) to
Yottameter (10²⁴ m), but adjacent variants are not uniformly one decimal
order apart: the greater neighbor's factor is 10 times the unit's factor
only for the six steps inside the Millimeter–Kilometer band, and 1000 times
it everywhere else. -/
theorem c3_metric_ladder_steps :
    MetricUnit.factor .Yoctometer = 1 / 10 ^ 24 ∧
    MetricUnit.factor .Yottameter = 10 ^ 24 ∧
    (∀ (u : MetricUnit) (g : Unit), u.greater_unit = some g →
      if u ∈ ([.Millimeter, .Centimeter, .Decimeter, .Meter, .Decameter,
               .Hectometer] : List MetricUnit)
      then g.factor = 10 * (Unit.Metric u).factor
      else g.factor = 1000 * (Unit.Metric u).factor) := by
  refine ⟨by norm_num [MetricUnit.factor], by norm_num [MetricUnit.factor], ?_⟩
  intro u g hg
  cases u
  all_goals simp [MetricUnit.greater_unit] at hg
  all_goals subst hg
  all_goals norm_num [Unit.factor, MetricUnit.factor, List.mem_cons]
  all_goals decide

/-- C3 witness: Meter's greater neighbor Decameter sits in the decade band
and its factor is 10 times Meter's. -/
theorem c3_witness :
    MetricUnit.Meter.greater_unit = some (.Metric .Decameter) ∧
    (if MetricUnit.Meter ∈ ([.Millimeter, .Centimeter, .Decimeter, .Meter, .Decameter,
                            .Hectometer] : List MetricUnit)
     then (Unit.Metric .Decameter).factor = 10 * (Unit.Metric .Meter).factor
     else (Unit.Metric .Decameter).factor = 1000 * (Unit.Metric .Meter).factor) :=
  ⟨rfl, c3_metric_ladder_steps.2.2 .Meter (.Metric .Decameter) rfl⟩

/-- C4 counterexample: the string constructor rejects "2µm" — the regex
symbol class `[a-zA-Z]` admits only ASCII letters, so the non-ASCII micro
sign never reaches the symbol lookup. -/
theorem c4_counterexample : Length.new_string ("2µm") = none := by decide

/-- C4 (amended): the direct symbol parser `Unit::from_str` does support the
one non-ASCII symbol "µm" (it yields Micrometer), but the string constructor
parses no input with the micro sign in symbol position: "2µm" yields none. -/
theorem c4_micro_sign_support :
    Unit.from_str ("µm") = some (.Metric .Micrometer) ∧
    Length.new_string ("2µm") = none := by
  decide

/-- C5 counterexample: for 0 Decameter the iteration cap is the reason
normalize stops (eleven downward steps would be needed), and normalize is
not idempotent there: one application yields 0 Zeptometer, a second yields
0 Yoctometer. -/
theorem c5_counterexample :
    Length.normalize (Length.normalize ⟨.Metric .Decameter, 0, ""⟩) ≠
      Length.normalize ⟨.Metric .Decameter, 0, ""⟩ := by
  have d01 : (⟨.Metric .Decameter, (0 : ℚ), ""⟩ : Length).normStep =
      some ⟨.Metric .Meter, 0, ""⟩ :=
    Length.metric_normStep_down _ _ 0 0 "" rfl (by decide) (by norm_num)
      (by norm_num [Unit.factor, MetricUnit.factor])
  have d02 : (⟨.Metric .Meter, (0 : ℚ), ""⟩ : Length).normStep =
      some ⟨.Metric .Decimeter, 0, ""⟩ :=
    Length.metric_normStep_down _ _ 0 0 "" rfl (by decide) (by norm_num)
      (by norm_num [Unit.factor, MetricUnit.factor])
  have d03 : (⟨.Metric .Decimeter, (0 : ℚ), ""⟩ : Length).normStep =
      some ⟨.Metric .Centimeter, 0, ""⟩ :=
    Length.metric_normStep_down _ _ 0 0 "" rfl (by decide) (by norm_num)
      (by norm_num [Unit.factor, MetricUnit.factor])
  have d04 : (⟨.Metric .Centimeter, (0 : ℚ), ""⟩ : Length).normStep =
      some ⟨.Metric .Millimeter, 0, ""⟩ :=
    Length.metric_normStep_down _ _ 0 0 "" rfl (by decide) (by norm_num)
      (by norm_num [Unit.factor, MetricUnit.factor])
  have d05 : (⟨.Metric .Millimeter, (0 : ℚ), ""⟩ : Length).normStep =
      some ⟨.Metric .Micrometer, 0, ""⟩ :=
    Length.metric_normStep_down _ _ 0 0 "" rfl (by decide) (by norm_num)
      (by norm_num [Unit.factor, MetricUnit.factor])
  have d06 : (⟨.Metric .Micrometer, (0 : ℚ), ""⟩ : Length).normStep =
      some ⟨.Metric .Nanometer, 0, ""⟩ :=
    Length.metric_normStep_down _ _ 0 0 "" rfl (by decide) (by norm_num)
      (by norm_num [Unit.factor, MetricUnit.factor])
  have d07 : (⟨.Metric .Nanometer, (0 : ℚ), ""⟩ : Length).normStep =
      some ⟨.Metric .Picometer, 0, ""⟩ :=
    Length.metric_normStep_down _ _ 0 0 "" rfl (by decide) (by norm_num)
      (by norm_num [Unit.factor, MetricUnit.factor])
  have d08 : (⟨.Metric .Picometer, (0 : ℚ), ""⟩ : Length).normStep =
      some ⟨.Metric .Femtometer, 0, ""⟩ :=
    Length.metric_normStep_down _ _ 0 0 "" rfl (by decide) (by norm_num)
      (by norm_num [Unit.factor, MetricUnit.factor])
  have d09 : (⟨.Metric .Femtometer, (0 : ℚ), ""⟩ : Length).normStep =
      some ⟨.Metric .Attometer, 0, ""⟩ :=
    Length.metric_normStep_down _ _ 0 0 "" rfl (by decide) (by norm_num)
      (by norm_num [Unit.factor, MetricUnit.factor])
  have d10 : (⟨.Metric .Attometer, (0 : ℚ), ""⟩ : Length).normStep =
      some ⟨.Metric .Zeptometer, 0, ""⟩ :=
    Length.metric_normStep_down _ _ 0 0 "" rfl (by decide) (by norm_num)
      (by norm_num [Unit.factor, MetricUnit.factor])
  have d11 : (⟨.Metric .Zeptometer, (0 : ℚ), ""⟩ : Length).normStep =
      some ⟨.Metric .Yoctometer, 0, ""⟩ :=
    Length.metric_normStep_down _ _ 0 0 "" rfl (by decide) (by norm_num)
      (by norm_num [Unit.factor, MetricUnit.factor])
  have d12 : (⟨.Metric .Yoctometer, (0 : ℚ), ""⟩ : Length).normStep = none :=
    Length.normStep_eq_none_of_no_smaller _ (by norm_num) rfl
  have h1 : Length.normalize ⟨.Metric .Decameter, 0, ""⟩ =
      ⟨.Metric .Zeptometer, 0, ""⟩ := by
    have hgo : Length.normGo 10 ⟨.Metric .Decameter, 0, ""⟩ =
        (⟨.Metric .Zeptometer, 0, ""⟩, false) := by
      calc Length.normGo 10 ⟨.Metric .Decameter, 0, ""⟩
          = Length.normGo 9 ⟨.Metric .Meter, 0, ""⟩ := Length.normGo_some 9 d01
        _ = Length.normGo 8 ⟨.Metric .Decimeter, 0, ""⟩ := Length.normGo_some 8 d02
        _ = Length.normGo 7 ⟨.Metric .Centimeter, 0, ""⟩ := Length.normGo_some 7 d03
        _ = Length.normGo 6 ⟨.Metric .Millimeter, 0, ""⟩ := Length.normGo_some 6 d04
        _ = Length.normGo 5 ⟨.Metric .Micrometer, 0, ""⟩ := Length.normGo_some 5 d05
        _ = Length.normGo 4 ⟨.Metric .Nanometer, 0, ""⟩ := Length.normGo_some 4 d06
        _ = Length.normGo 3 ⟨.Metric .Picometer, 0, ""⟩ := Length.normGo_some 3 d07
        _ = Length.normGo 2 ⟨.Metric .Femtometer, 0, ""⟩ := Length.normGo_some 2 d08
        _ = Length.normGo 1 ⟨.Metric .Attometer, 0, ""⟩ := Length.normGo_some 1 d09
        _ = Length.normGo 0 ⟨.Metric .Zeptometer, 0, ""⟩ := Length.normGo_some 0 d10
        _ = (⟨.Metric .Zeptometer, 0, ""⟩, false) := rfl
    rw [Length.normalize, hgo]
  have h2 : Length.normalize ⟨.Metric .Zeptometer, 0, ""⟩ =
      ⟨.Metric .Yoctometer, 0, ""⟩ := by
    have hgo : Length.normGo 10 ⟨.Metric .Zeptometer, 0, ""⟩ =
        (⟨.Metric .Yoctometer, 0, ""⟩, true) := by
      calc Length.normGo 10 ⟨.Metric .Zeptometer, 0, ""⟩
          = Length.normGo 9 ⟨.Metric .Yoctometer, 0, ""⟩ := Length.normGo_some 9 d11
        _ = (⟨.Metric .Yoctometer, 0, ""⟩, true) := Length.normGo_none 8 d12
    rw [Length.normalize, hgo]
  rw [h1, h2]
  decide

/-- C5 (amended): the iteration cap can be the reason normalize stops
(0 Decameter needs eleven downward steps), so normalize is not idempotent in
general; but whenever the loop halts by setting done within the ten allowed
iterations, the output is a fixpoint: normalize of the output returns it
unchanged. -/
theorem c5_normalize_idempotent_unless_cap (l : Length)
    (h : (Length.normGo 10 l).2 = true) : l.normalize.normalize = l.normalize := by
  rcases hgo : Length.normGo 10 l with ⟨a, b⟩
  rw [hgo] at h
  have hb : b = true := h
  subst hb
  have ha : l.normalize = a := by rw [Length.normalize, hgo]
  rw [ha]
  exact Length.normalize_of_normStep_none (Length.normGo_done 10 l a hgo)

/-- C5 witness: 5 Kilometer halts with done in one iteration, and normalize
is idempotent on it. -/
theorem c5_witness :
    (Length.normGo 10 (⟨.Metric .Kilometer, 5, ""⟩ : Length)).2 = true ∧
    (⟨.Metric .Kilometer, 5, ""⟩ : Length).normalize.normalize =
      (⟨.Metric .Kilometer, 5, ""⟩ : Length).normalize := by
  have st : (⟨.Metric .Kilometer, (5 : ℚ), ""⟩ : Length).normStep = none :=
    Length.metric_normStep_stop _ _ 5 "" rfl (by decide) (by norm_num)
      (by norm_num [Unit.factor, MetricUnit.factor])
  have hgo : Length.normGo 10 (⟨.Metric .Kilometer, 5, ""⟩ : Length) =
      (⟨.Metric .Kilometer, 5, ""⟩, true) := Length.normGo_none 9 st
  exact ⟨by rw [hgo], c5_normalize_idempotent_unless_cap _ (by rw [hgo])⟩

/-- C6: converting a Length to its own unit returns the input unchanged —
the identity short-circuit of `Length::to` returns the clone itself, so the
value (and even the original string) is preserved exactly, with no
arithmetic applied. -/
theorem c6_to_same_unit_identity (l : Length) (u : Unit) (h : l.unit = u) : l.to u = l := by
  rw [Length.to]
  unfold Length.toFuel
  simp [h]

/-- C6 witness: the identity conversion at 2.5 m returns the input. -/
theorem c6_witness :
    (⟨.Metric .Meter, 2.5, "x"⟩ : Length).unit = .Metric .Meter ∧
    (⟨.Metric .Meter, 2.5, "x"⟩ : Length).to (.Metric .Meter) =
      ⟨.Metric .Meter, 2.5, "x"⟩ :=
  ⟨rfl, c6_to_same_unit_identity ⟨.Metric .Meter, 2.5, "x"⟩ (.Metric .Meter) rfl⟩

/-- C7: for each of the 34 unit variants, parsing the unit's canonical
symbol returns exactly that unit (the symbol mapping round-trips, hence is a
bijection between the symbol set and the variants). -/
theorem c7_symbol_roundtrip : ∀ u : Unit, Unit.from_str u.to_string = some u := by
  decide

/-- C8: `smaller_unit`/`greater_unit` stay within the unit's own system,
return `none` exactly at the ladder ends (no smaller for AstronomicalUnit,
Inch, Yoctometer; no greater for Megaparsec, Mile, Yottameter), and stepping
smaller then greater (or greater then smaller) from an interior unit returns
the starting unit. -/
theorem c8_ladder_neighbors :
    (∀ u u' : Unit, u.smaller_unit = some u' →
      u'.system = u.system ∧ u'.greater_unit = some u) ∧
    (∀ u u' : Unit, u.greater_unit = some u' →
      u'.system = u.system ∧ u'.smaller_unit = some u) ∧
    (∀ u : Unit, u.smaller_unit = none ↔
      (u = .Astronomic .AstronomicalUnit ∨ u = .Imperial .Inch ∨ u = .Metric .Yoctometer)) ∧
    (∀ u : Unit, u.greater_unit = none ↔
      (u = .Astronomic .Megaparsec ∨ u = .Imperial .Mile ∨ u = .Metric .Yottameter)) := by
  decide

/-- C8 witness: stepping down from Zeptometer stays metric and steps back
up to Zeptometer. -/
theorem c8_witness :
    (Unit.Metric .Zeptometer).smaller_unit = some (.Metric .Yoctometer) ∧
    (Unit.Metric .Yoctometer).system = (Unit.Metric .Zeptometer).system ∧
    (Unit.Metric .Yoctometer).greater_unit = some (.Metric .Zeptometer) :=
  ⟨by decide,
   (c8_ladder_neighbors.1 (.Metric .Zeptometer) (.Metric .Yoctometer) (by decide)).1,
   (c8_ladder_neighbors.1 (.Metric .Zeptometer) (.Metric .Yoctometer) (by decide)).2⟩

/-- C9 counterexample: a Length built by parsing "2m" and then converted to
its own unit Meter still carries the original string "2m" — a conversion
output whose original string is not empty. -/
theorem c9_counterexample :
    (Length.new_string ("2m")).map (fun l => (l.to (.Metric .Meter)).original_string) =
      some "2m" := by
  decide

/-- C9 (amended): the original string is set by parsing and is empty for
lengths built by the other constructors; arithmetic outputs always carry an
empty original string and conversion to a different unit clears it, but the
identity conversion returns the clone with the original string intact. -/
theorem c9_original_string_discipline :
    Length.new.original_string = "" ∧
    (∀ (v : ℚ) (u : Unit), (Length.new_value_unit v u).original_string = "") ∧
    (∀ a b : Length, (a.add b).original_string = "" ∧ (a.subtract b).original_string = "") ∧
    (∀ (a : Length) (q : ℚ),
      (a.multiply_by q).original_string = "" ∧ (a.divide_by q).original_string = "") ∧
    (∀ (l : Length) (u : Unit), l.unit ≠ u → (l.to u).original_string = "") ∧
    (∀ (l : Length) (u : Unit), l.unit = u → (l.to u).original_string = l.original_string) := by
  refine ⟨rfl, fun v u => rfl, fun a b => ⟨rfl, rfl⟩, fun a q => ⟨rfl, rfl⟩, ?_, ?_⟩
  · intro l u h
    rw [Length.to]
    unfold Length.toFuel
    rw [if_neg h]
    rfl
  · intro l u h
    rw [Length.to]
    unfold Length.toFuel
    rw [if_pos h]

/-- C9 witness: converting 1 m (with original string "1m") to Kilometer
yields an empty original string. -/
theorem c9_witness :
    (⟨.Metric .Meter, 1, "1m"⟩ : Length).unit ≠ .Metric .Kilometer ∧
    ((⟨.Metric .Meter, 1, "1m"⟩ : Length).to (.Metric .Kilometer)).original_string = "" :=
  ⟨by decide, c9_original_string_discipline.2.2.2.2.1 _ _ (by decide)⟩

/-- C10: while the value is below 1 the normalize loop body always steps
down to the smaller unit when one exists — carrying the original string, as
`to_by_ref` only copies value and unit — and never sets done; the default
length 0 Meter normalizes to 0 Yoctometer (not 0 Meter), the ten downward
steps exactly exhausting the iteration cap (done still false at exit). -/
theorem c10_steps_down_below_one :
    (∀ (l : Length) (s : Unit), l.value < 1 → l.unit.smaller_unit = some s →
      l.normStep = some ⟨(l.to s).unit, (l.to s).value, l.original_string⟩) ∧
    Length.new.normalize = ⟨.Metric .Yoctometer, 0, ""⟩ ∧
    (Length.normGo 10 Length.new).2 = false := by
  have d01 : Length.new.normStep = some ⟨.Metric .Decimeter, 0, ""⟩ :=
    Length.metric_normStep_down _ _ 0 0 "" rfl (by decide) (by norm_num)
      (by norm_num [Unit.factor, MetricUnit.factor])
  have d02 : (⟨.Metric .Decimeter, (0 : ℚ), ""⟩ : Length).normStep =
      some ⟨.Metric .Centimeter, 0, ""⟩ :=
    Length.metric_normStep_down _ _ 0 0 "" rfl (by decide) (by norm_num)
      (by norm_num [Unit.factor, MetricUnit.factor])
  have d03 : (⟨.Metric .Centimeter, (0 : ℚ), ""⟩ : Length).normStep =
      some ⟨.Metric .Millimeter, 0, ""⟩ :=
    Length.metric_normStep_down _ _ 0 0 "" rfl (by decide) (by norm_num)
      (by norm_num [Unit.factor, MetricUnit.factor])
  have d04 : (⟨.Metric .Millimeter, (0 : ℚ), ""⟩ : Length).normStep =
      some ⟨.Metric .Micrometer, 0, ""⟩ :=
    Length.metric_normStep_down _ _ 0 0 "" rfl (by decide) (by norm_num)
      (by norm_num [Unit.factor, MetricUnit.factor])
  have d05 : (⟨.Metric .Micrometer, (0 : ℚ), ""⟩ : Length).normStep =
      some ⟨.Metric .Nanometer, 0, ""⟩ :=
    Length.metric_normStep_down _ _ 0 0 "" rfl (by decide) (by norm_num)
      (by norm_num [Unit.factor, MetricUnit.factor])
  have d06 : (⟨.Metric .Nanometer, (0 : ℚ), ""⟩ : Length).normStep =
      some ⟨.Metric .Picometer, 0, ""⟩ :=
    Length.metric_normStep_down _ _ 0 0 "" rfl (by decide) (by norm_num)
      (by norm_num [Unit.factor, MetricUnit.factor])
  have d07 : (⟨.Metric .Picometer, (0 : ℚ), ""⟩ : Length).normStep =
      some ⟨.Metric .Femtometer, 0, ""⟩ :=
    Length.metric_normStep_down _ _ 0 0 "" rfl (by decide) (by norm_num)
      (by norm_num [Unit.factor, MetricUnit.factor])
  have d08 : (⟨.Metric .Femtometer, (0 : ℚ), ""⟩ : Length).normStep =
      some ⟨.Metric .Attometer, 0, ""⟩ :=
    Length.metric_normStep_down _ _ 0 0 "" rfl (by decide) (by norm_num)
      (by norm_num [Unit.factor, MetricUnit.factor])
  have d09 : (⟨.Metric .Attometer, (0 : ℚ), ""⟩ : Length).normStep =
      some ⟨.Metric .Zeptometer, 0, ""⟩ :=
    Length.metric_normStep_down _ _ 0 0 "" rfl (by decide) (by norm_num)
      (by norm_num [Unit.factor, MetricUnit.factor])
  have d10 : (⟨.Metric .Zeptometer, (0 : ℚ), ""⟩ : Length).normStep =
      some ⟨.Metric .Yoctometer, 0, ""⟩ :=
    Length.metric_normStep_down _ _ 0 0 "" rfl (by decide) (by norm_num)
      (by norm_num [Unit.factor, MetricUnit.factor])
  have hgo : Length.normGo 10 Length.new = (⟨.Metric .Yoctometer, 0, ""⟩, false) := by
    calc Length.normGo 10 Length.new
        = Length.normGo 9 ⟨.Metric .Decimeter, 0, ""⟩ := Length.normGo_some 9 d01
      _ = Length.normGo 8 ⟨.Metric .Centimeter, 0, ""⟩ := Length.normGo_some 8 d02
      _ = Length.normGo 7 ⟨.Metric .Millimeter, 0, ""⟩ := Length.normGo_some 7 d03
      _ = Length.normGo 6 ⟨.Metric .Micrometer, 0, ""⟩ := Length.normGo_some 6 d04
      _ = Length.normGo 5 ⟨.Metric .Nanometer, 0, ""⟩ := Length.normGo_some 5 d05
      _ = Length.normGo 4 ⟨.Metric .Picometer, 0, ""⟩ := Length.normGo_some 4 d06
      _ = Length.normGo 3 ⟨.Metric .Femtometer, 0, ""⟩ := Length.normGo_some 3 d07
      _ = Length.normGo 2 ⟨.Metric .Attometer, 0, ""⟩ := Length.normGo_some 2 d08
      _ = Length.normGo 1 ⟨.Metric .Zeptometer, 0, ""⟩ := Length.normGo_some 1 d09
      _ = Length.normGo 0 ⟨.Metric .Yoctometer, 0, ""⟩ := Length.normGo_some 0 d10
      _ = (⟨.Metric .Yoctometer, 0, ""⟩, false) := rfl
  refine ⟨?_, by rw [Length.normalize, hgo], by rw [hgo]⟩
  intro l s h1 h2
  simp only [Length.normStep]
  rw [if_pos h1, h2]

/-- C10 witness: 0.5 m steps down to Decimeter, keeping the original
string. -/
theorem c10_witness :
    (⟨.Metric .Meter, 0.5, "h"⟩ : Length).value < 1 ∧
    (⟨.Metric .Meter, 0.5, "h"⟩ : Length).unit.smaller_unit = some (.Metric .Decimeter) ∧
    (⟨.Metric .Meter, 0.5, "h"⟩ : Length).normStep =
      some ⟨((⟨.Metric .Meter, 0.5, "h"⟩ : Length).to (.Metric .Decimeter)).unit,
            ((⟨.Metric .Meter, 0.5, "h"⟩ : Length).to (.Metric .Decimeter)).value,
            (⟨.Metric .Meter, 0.5, "h"⟩ : Length).original_string⟩ :=
  ⟨by norm_num, by decide,
   c10_steps_down_below_one.1 ⟨.Metric .Meter, 0.5, "h"⟩ (.Metric .Decimeter)
     (by norm_num) (by decide)⟩
